import Mathlib

/-!
Shallow embedding of the two MCP tool servers of this repository:

* `src/src/index.ts`   - the weather server (`weather-server`), three tools
  (`get_current_weather`, `get_weather_forecast`, `compare_weather`) over the
  OpenWeatherMap HTTP API;
* `src/unnamed/part_000` - the GitHub diff server (`github-diff-mcp`), one tool
  (`git_changes_between_versions`) over the GitHub compare HTTP API.

Both files register a `CallToolRequestSchema` handler with the MCP SDK.  We
embed each handler as a pure Lean function.  The outside world (the `fetch` /
`axios.get` HTTP calls) is abstracted as an oracle - a function from the
request URL to either a rejection message or a parsed response - and every
outbound call is recorded in a log, so that "no outbound call is attempted"
is the statement that the log is empty.  A JavaScript exception is modelled
as the `Except.error` side carrying the `Error` message; a handler that
throws past the SDK boundary (a protocol-level fault) is a final result of
the form `(Except.error m, log)`, while a returned response envelope is
`(Except.ok env, log)`.

JavaScript numbers are modelled as exact fractions (`JsNum`, an unnormalized
`num/den` pair kept kernel-computable); every numeric value the claims touch
is integral, so no floating-point behaviour is exercised.
-/

/-! ### Kernel-computable decimal rendering of naturals and integers -/

/-- Decimal digit character: `digitChar n` is the ASCII digit for `n < 10`. -/
def digitChar (n : Nat) : Char := Char.ofNat (48 + n)

/-- Fuel-indexed digit accumulation (structural recursion on the fuel, so the
kernel can evaluate it; fuel `n + 1` always suffices for the number `n`). -/
def natToStringAux : Nat → Nat → List Char
  | 0, _ => []
  | fuel + 1, n =>
    if n < 10 then [digitChar n] else natToStringAux fuel (n / 10) ++ [digitChar (n % 10)]

/-- Decimal rendering of a natural number, matching how JavaScript prints an
integral non-negative number inside a template literal. -/
def natToString (n : Nat) : String := String.mk (natToStringAux (n + 1) n)

/-- Decimal rendering of an integer, matching JavaScript for integral values. -/
def intToString : Int → String
  | .ofNat n => natToString n
  | .negSucc n => "-" ++ natToString (n + 1)

/-! ### JavaScript numbers as exact fractions

`JsNum` is an unnormalized fraction `num / den`; all constructed values keep
`den` positive.  We avoid `Rat` because its normalization (via `Nat.gcd`) does
not reduce in the kernel, which would block `decide` on concrete scenarios. -/

/-- A JavaScript number, modelled as an exact (unnormalized) fraction. -/
structure JsNum where
  num : Int
  den : Int
deriving DecidableEq, Repr

/-- Multiplication of modelled JavaScript numbers. -/
def jsnMul (a b : JsNum) : JsNum := ⟨a.num * b.num, a.den * b.den⟩

/-- JavaScript `Math.round`: round half toward positive infinity, so
`round q = floor (q + 1/2)`, computed as a single floor division. -/
def jsRound (q : JsNum) : Int := Int.fdiv (2 * q.num + q.den) (2 * q.den)

/-- Truncation toward zero, as JavaScript coercions of fractional indices do. -/
def jsTrunc (q : JsNum) : Int := Int.tdiv q.num q.den

/-- Rendering of a modelled JavaScript number inside a template literal or
`JSON.stringify`.  Every number reaching this function in the verified claims
is integral; the fallback branch for a non-integral value is a placeholder
(JavaScript would print a decimal expansion) and is never exercised. -/
def jsNumToString (q : JsNum) : String :=
  if Int.emod q.num q.den = 0 then intToString (Int.tdiv q.num q.den)
  else intToString q.num ++ "/" ++ intToString q.den

/-- JavaScript `list.slice(0, q)` on a possibly fractional, possibly negative
bound: truncate the bound toward zero; a negative bound counts from the end. -/
def jsSliceTo {α : Type} (q : JsNum) (l : List α) : List α :=
  let n := jsTrunc q
  if n < 0 then l.take (l.length - Int.toNat (-n)) else l.take (Int.toNat n)

/-! ### Kernel-computable string helpers

The core `String.splitOn` / `String.startsWith` use well-founded recursion
over byte positions and do not reduce in the kernel, so we use list-based
equivalents.  All separators appearing in the source are single characters
(`"/"`, `"\n"`, `" "`), matching JavaScript `String.prototype.split` with a
one-character separator. -/

/-- Whether the first list has the second as a prefix (JavaScript
`String.prototype.startsWith` on the underlying characters). -/
def charListStartsWith : List Char → List Char → Bool
  | _, [] => true
  | [], _ :: _ => false
  | c :: cs, p :: ps => c = p && charListStartsWith cs ps

/-- JavaScript `s.startsWith(p)`. -/
def strStartsWith (s p : String) : Bool := charListStartsWith s.data p.data

/-- Accumulator-based character splitting. -/
def splitCharAux (sep : Char) : List Char → List Char → List (List Char)
  | [], acc => [acc.reverse]
  | c :: cs, acc =>
    if c = sep then acc.reverse :: splitCharAux sep cs [] else splitCharAux sep cs (c :: acc)

/-- JavaScript `s.split(sep)` for a one-character separator: always returns a
non-empty list; `"".split(sep) = [""]`. -/
def jsSplit (sep : Char) (s : String) : List String :=
  (splitCharAux sep s.data []).map String.mk

/-- JavaScript `s.substring(0, n)`: the first `n` characters (the whole string
when it is shorter). -/
def strTake (s : String) (n : Nat) : String := String.mk (s.data.take n)

/-- Join a list of strings with a separator between consecutive elements. -/
def joinSep (sep : String) : List String → String
  | [] => ""
  | [x] => x
  | x :: y :: xs => x ++ sep ++ joinSep sep (y :: xs)

/-! ### JavaScript `encodeURIComponent`

Used by both weather URLs.  Unreserved characters (per the ECMAScript
definition) pass through; everything else is percent-encoded byte-wise over
its UTF-8 encoding, with uppercase hexadecimal digits. -/

/-- Uppercase hexadecimal digit. -/
def hexDigitUpper (n : Nat) : Char :=
  if n < 10 then Char.ofNat (48 + n) else Char.ofNat (55 + n)

/-- Lowercase hexadecimal digit. -/
def hexDigitLower (n : Nat) : Char :=
  if n < 10 then Char.ofNat (48 + n) else Char.ofNat (87 + n)

/-- Two uppercase hexadecimal digits of a byte. -/
def byteHexUpper (b : Nat) : String := String.mk [hexDigitUpper (b / 16), hexDigitUpper (b % 16)]

/-- Two lowercase hexadecimal digits of a byte. -/
def byteHexLower (b : Nat) : String := String.mk [hexDigitLower (b / 16), hexDigitLower (b % 16)]

/-- UTF-8 bytes of a Unicode code point. -/
def utf8Bytes (n : Nat) : List Nat :=
  if n < 128 then [n]
  else if n < 2048 then [192 + n / 64, 128 + n % 64]
  else if n < 65536 then [224 + n / 4096, 128 + (n / 64) % 64, 128 + n % 64]
  else [240 + n / 262144, 128 + (n / 4096) % 64, 128 + (n / 64) % 64, 128 + n % 64]

/-- Characters `encodeURIComponent` leaves unescaped: ASCII alphanumerics and
`- _ . ! ~ * ( )` together with the apostrophe (code point 39). -/
def isURIUnreserved (c : Char) : Bool :=
  c.isAlphanum || c = Char.ofNat 45 || c = Char.ofNat 95 || c = Char.ofNat 46 ||
    c = Char.ofNat 33 || c = Char.ofNat 126 || c = Char.ofNat 42 || c = Char.ofNat 39 ||
    c = Char.ofNat 40 || c = Char.ofNat 41

/-- JavaScript `encodeURIComponent`. -/
def encodeURIComponent (s : String) : String :=
  String.join (s.data.map (fun c =>
    if isURIUnreserved c then String.mk [c]
    else String.join ((utf8Bytes c.toNat).map (fun b => "%" ++ byteHexUpper b))))

/-! ### JSON string escaping, as `JSON.stringify` performs it -/

/-- Escape one character for a JSON string literal. -/
def jsonEscapeChar (c : Char) : String :=
  if c = Char.ofNat 34 then "\\\""
  else if c = Char.ofNat 92 then "\\\\"
  else if c = Char.ofNat 10 then "\\n"
  else if c = Char.ofNat 13 then "\\r"
  else if c = Char.ofNat 9 then "\\t"
  else if c = Char.ofNat 8 then "\\b"
  else if c = Char.ofNat 12 then "\\f"
  else if c.toNat < 32 then "\\u00" ++ byteHexLower c.toNat
  else String.mk [c]

/-- Escape a whole string for a JSON string literal. -/
def jsonEscape (s : String) : String := String.join (s.data.map jsonEscapeChar)

/-- A JSON string literal with surrounding quotes. -/
def jsonQuote (s : String) : String := "\"" ++ jsonEscape s ++ "\""

/-! ### JavaScript values reaching the handlers

The `arguments` object of a `CallTool` request is an untyped bag; a missing
property reads as `undefined`.  `Args` models the object as an association
list (property lookup takes the first binding). -/

/-- A JavaScript value as the handlers see it: a string, a number, or
`undefined` (the result of reading an absent property). -/
inductive JsVal where
  | str (s : String)
  | num (q : JsNum)
  | undefined
deriving DecidableEq, Repr

/-- The `arguments` object of a `CallTool` request. -/
abbrev Args := List (String × JsVal)

/-- JavaScript property read `args.k`: `undefined` when the property is
absent. -/
def getArg (a : Args) (k : String) : JsVal :=
  match a.find? (fun p => p.1 == k) with
  | some p => p.2
  | none => .undefined

/-- JavaScript string coercion as performed by template literals and by
`encodeURIComponent`: `undefined` prints as the string `undefined`. -/
def jsToString : JsVal → String
  | .str s => s
  | .num q => jsNumToString q
  | .undefined => "undefined"

/-- The `(args.days as number) || 3` idiom: the TypeScript cast has no runtime
effect, and `||` replaces any falsy value (absent property, `0`) by the
default.  A non-empty string value for `days` would survive `||` in
JavaScript and be coerced later; no claim exercises that path, and it is
mapped to the default here. -/
def jsNumOr (v : JsVal) (d : JsNum) : JsNum :=
  match v with
  | .num q => if q.num = 0 then d else q
  | _ => d

/-! ### The effect of a handler run

`EffM α` is the observable outcome of running a handler body: either a thrown
`Error` message or a value, together with the ordered list of outbound HTTP
request URLs that were issued.  `effCatch` is the `try/catch` of the source;
`promiseAll2` is `Promise.all` over two requests (both requests are issued -
both URLs are logged - and a rejection of either rejects the joint await;
when both reject, the model reports the first message, the one observable
outcome `Promise.all` does not fix deterministically). -/

/-- Outcome of a handler body: thrown message or value, plus the URL log. -/
abbrev EffM (α : Type) : Type := Except String α × List String

/-- A body step that returns a value and performs no outbound call. -/
def effPure {α : Type} (a : α) : EffM α := (Except.ok a, [])

/-- A body step that throws an `Error` with the given message. -/
def effThrow {α : Type} (m : String) : EffM α := (Except.error m, [])

/-- Sequencing: a thrown error short-circuits; logs accumulate in order. -/
def effBind {α β : Type} (x : EffM α) (f : α → EffM β) : EffM β :=
  match x.1 with
  | .error m => (Except.error m, x.2)
  | .ok a => ((f a).1, x.2 ++ (f a).2)

/-- The `try/catch` boundary: a thrown message is handed to the catch clause,
a value passes through unchanged. -/
def effCatch {α : Type} (x : EffM α) (h : String → EffM α) : EffM α :=
  match x.1 with
  | .error m => ((h m).1, x.2 ++ (h m).2)
  | .ok _ => x

/-- One outbound HTTP request against the oracle: the URL is logged whether or
not the request succeeds. -/
def effCall {α : Type} (o : String → Except String α) (url : String) : EffM α :=
  (o url, [url])

/-- `Promise.all` over two awaited requests: both are issued (both logs
appear, in argument order), and either rejection rejects the pair. -/
def promiseAll2 {α β : Type} (x : EffM α) (y : EffM β) : EffM (α × β) :=
  (match x.1, y.1 with
   | Except.error m, _ => Except.error m
   | Except.ok _, Except.error m => Except.error m
   | Except.ok a, Except.ok b => Except.ok (a, b),
   x.2 ++ y.2)

/-- Decidable equality for `Except`, needed to evaluate concrete scenarios. -/
instance {ε α : Type} [DecidableEq ε] [DecidableEq α] : DecidableEq (Except ε α) := fun x y =>
  match x, y with
  | .error a, .error b =>
    if h : a = b then .isTrue (by rw [h]) else .isFalse (fun hc => h (by injection hc))
  | .error _, .ok _ => .isFalse (fun hc => Except.noConfusion hc)
  | .ok _, .error _ => .isFalse (fun hc => Except.noConfusion hc)
  | .ok a, .ok b =>
    if h : a = b then .isTrue (by rw [h]) else .isFalse (fun hc => h (by injection hc))

/-! ### The response envelope (both servers)

Both handlers return `{ content: [{ type: "text", text }], isError? }`; the
`isError` property is present (and `true`) only on the error path, which the
`Option Bool` records. -/

/-- One content block of a response envelope. -/
structure ContentBlock where
  type : String
  text : String
deriving DecidableEq, Repr

/-- The response envelope returned by a `CallTool` handler. -/
structure Envelope where
  content : List ContentBlock
  isError : Option Bool
deriving DecidableEq, Repr

/-- The envelope built by the `catch` block of both servers: one text block
reading `Error: <message>` with `isError = true`.  (Both servers compute the
message as `error.message`; every throw in the modelled code carries a
message, so the `Unknown error occurred` fallback for non-`Error` throws is
unreachable in the model.) -/
def mkErrorEnvelope (m : String) : Envelope :=
  { content := [{ type := "text", text := "Error: " ++ m }], isError := some true }

/-! ## The weather server (`src/src/index.ts`)

`WEATHER_API_KEY = process.env.OPENWEATHER_API_KEY || ""` is passed in as the
`key` parameter (the unset and the empty environment variable both yield
`""`).  The upstream weather and forecast endpoints are oracles from the
request URL to either a rejection message (network failure) or an HTTP
response.  A response carries the `ok` / `status` / `statusText` the code
reads, and `json` is the parsed body: its `Except.error` side models a
malformed upstream response (a rejected `response.json()` or a `TypeError`
raised while reading a missing property such as `data.main.temp`), carrying
the message of the exception that the property access would throw. -/

/-- The fields of a well-formed OpenWeatherMap current-weather body that the
code reads: `data.main.temp`, `data.main.feels_like`, `data.main.humidity`,
`data.weather[0].main`, `data.weather[0].description`, `data.wind.speed`,
`data.name`, `data.sys.country`. -/
structure OwmBody where
  temp : JsNum
  feels_like : JsNum
  humidity : JsNum
  weatherMain : String
  weatherDescription : String
  windSpeed : JsNum
  name : String
  country : String
deriving DecidableEq, Repr

/-- An HTTP response as `fetch` presents it to the code. -/
structure HttpResp (α : Type) where
  ok : Bool
  status : Nat
  statusText : String
  json : Except String α

/-- One item of `data.list` in a forecast body: `item.dt_txt`,
`item.main.temp_min`, `item.main.temp_max`, `item.weather[0].main`,
`item.weather[0].description`. -/
structure ForecastItem where
  dt_txt : String
  temp_min : JsNum
  temp_max : JsNum
  wMain : String
  wDescription : String
deriving Repr

/-- The fields of a forecast body that the code reads: `data.list`,
`data.city.name`, `data.city.country`. -/
structure ForecastBody where
  list : List ForecastItem
  cityName : String
  cityCountry : String
deriving Repr

/-- The upstream current-weather endpoint. -/
abbrev WeatherOracle := String → Except String (HttpResp OwmBody)

/-- The upstream forecast endpoint. -/
abbrev ForecastOracle := String → Except String (HttpResp ForecastBody)

/-- `WEATHER_API_BASE` of the source. -/
def WEATHER_API_BASE : String := "https://api.openweathermap.org/data/2.5"

/-- The `WeatherData` interface of the source (temperatures and wind speed
already rounded, as `fetchWeather` builds it). -/
structure WeatherData where
  temperature : Int
  feels_like : Int
  condition : String
  description : String
  humidity : JsNum
  wind_speed : Int
  city : String
  country : String
deriving DecidableEq, Repr

/-- The URL built by `fetchWeather`. -/
def weatherUrl (key city : String) : String :=
  WEATHER_API_BASE ++ "/weather?q=" ++ encodeURIComponent city ++ "&appid=" ++ key ++ "&units=metric"

/-- `fetchWeather` of the source: fetch the URL, throw
`Weather API error: <status> <statusText>` on a non-ok response, then map the
parsed body into `WeatherData`, rounding the temperatures and converting the
wind speed from m/s to km/h (`* 3.6`, the fraction `18/5`). -/
def fetchWeather (wo : WeatherOracle) (key city : String) : EffM WeatherData :=
  effBind (effCall wo (weatherUrl key city)) (fun resp =>
    if resp.ok = false then
      effThrow ("Weather API error: " ++ natToString resp.status ++ " " ++ resp.statusText)
    else
      match resp.json with
      | .error m => effThrow m
      | .ok d =>
        effPure {
          temperature := jsRound d.temp
          feels_like := jsRound d.feels_like
          condition := d.weatherMain
          description := d.weatherDescription
          humidity := d.humidity
          wind_speed := jsRound (jsnMul d.windSpeed ⟨18, 5⟩)
          city := d.name
          country := d.country })

/-- The URL built by `fetchForecast` (`cnt = days * 8`). -/
def forecastUrl (key city : String) (days : JsNum) : String :=
  WEATHER_API_BASE ++ "/forecast?q=" ++ encodeURIComponent city ++ "&appid=" ++ key ++
    "&units=metric&cnt=" ++ jsNumToString (jsnMul days ⟨8, 1⟩)

/-- One entry of the per-day summary accumulated by `fetchForecast`. -/
structure DayEntry where
  date : String
  temp_min : JsNum
  temp_max : JsNum
  condition : String
  description : String
deriving Repr

/-- The `reduce` of `fetchForecast`: keep the first list item of each date
(the date is the part of `dt_txt` before the first space). -/
def groupDaily (items : List ForecastItem) : List DayEntry :=
  items.foldl (fun acc item =>
    let date := (jsSplit (Char.ofNat 32) item.dt_txt).headD ""
    if acc.any (fun d => d.date == date) then acc
    else acc ++ [{ date := date, temp_min := item.temp_min, temp_max := item.temp_max,
                   condition := item.wMain, description := item.wDescription }]) []

/-- The value returned by `fetchForecast`. -/
structure ForecastResult where
  city : String
  country : String
  forecast : List DayEntry
deriving Repr

/-- `fetchForecast` of the source. -/
def fetchForecast (fo : ForecastOracle) (key city : String) (days : JsNum) : EffM ForecastResult :=
  effBind (effCall fo (forecastUrl key city days)) (fun resp =>
    if resp.ok = false then
      effThrow ("Forecast API error: " ++ natToString resp.status ++ " " ++ resp.statusText)
    else
      match resp.json with
      | .error m => effThrow m
      | .ok d =>
        effPure { city := d.cityName, country := d.cityCountry,
                  forecast := jsSliceTo days (groupDaily d.list) })

/-- The horizontal separator line the weather server prints. -/
def separatorLine : String := "━━━━━━━━━━━━━━━━━━━━━━━━━━━━━━━"

/-- The template literal of the `get_current_weather` branch. -/
def currentWeatherText (w : WeatherData) : String :=
  "Current Weather in " ++ w.city ++ ", " ++ w.country ++ ":\n"
  ++ separatorLine ++ "\n"
  ++ "🌡️  Temperature: " ++ intToString w.temperature ++ "°C (feels like "
  ++ intToString w.feels_like ++ "°C)\n"
  ++ "☁️  Condition: " ++ w.condition ++ " - " ++ w.description ++ "\n"
  ++ "💧 Humidity: " ++ jsNumToString w.humidity ++ "%\n"
  ++ "💨 Wind Speed: " ++ intToString w.wind_speed ++ " km/h"

/-- The string built by the `get_weather_forecast` branch (header plus one
block per forecast day). -/
def forecastText (days : JsNum) (f : ForecastResult) : String :=
  jsNumToString days ++ "-Day Weather Forecast for " ++ f.city ++ ", " ++ f.country ++ ":\n"
  ++ separatorLine ++ "\n\n"
  ++ String.join (f.forecast.enum.map (fun p =>
       "Day " ++ natToString (p.1 + 1) ++ " (" ++ p.2.date ++ "):\n"
       ++ "  🌡️  " ++ intToString (jsRound p.2.temp_min) ++ "°C - "
       ++ intToString (jsRound p.2.temp_max) ++ "°C\n"
       ++ "  ☁️  " ++ p.2.condition ++ " - " ++ p.2.description ++ "\n\n"))

/-- The template literal of the `compare_weather` branch, parameterized by the
already-computed `warmer` city name and temperature difference. -/
def compareText (w1 w2 : WeatherData) (warmer : String) (tempDiff : Nat) : String :=
  "Weather Comparison:\n" ++ separatorLine ++ "\n\n"
  ++ w1.city ++ ", " ++ w1.country ++ ":\n"
  ++ "  🌡️  " ++ intToString w1.temperature ++ "°C (feels like "
  ++ intToString w1.feels_like ++ "°C)\n"
  ++ "  ☁️  " ++ w1.condition ++ " - " ++ w1.description ++ "\n"
  ++ "  💧 " ++ jsNumToString w1.humidity ++ "% humidity\n\n"
  ++ w2.city ++ ", " ++ w2.country ++ ":\n"
  ++ "  🌡️  " ++ intToString w2.temperature ++ "°C (feels like "
  ++ intToString w2.feels_like ++ "°C)\n"
  ++ "  ☁️  " ++ w2.condition ++ " - " ++ w2.description ++ "\n"
  ++ "  💧 " ++ jsNumToString w2.humidity ++ "% humidity\n\n"
  ++ "📊 Comparison:\n"
  ++ "  " ++ warmer ++ " is " ++ natToString tempDiff ++ "°C warmer"

/-- The text of the informational response returned when `WEATHER_API_KEY` is
empty (note: no `isError` property is set on this envelope). -/
def apiKeyText : String :=
  "Error: OPENWEATHER_API_KEY environment variable not set. Please get a free API key from https://openweathermap.org/api"

/-- The envelope returned by the API-key guard: a single text block, with the
`isError` property absent. -/
def apiKeyEnvelope : Envelope :=
  { content := [{ type := "text", text := apiKeyText }], isError := none }

/-- The success envelope of the `compare_weather` branch: `tempDiff` is
`Math.abs` of the difference of the rounded temperatures, and `warmer` is
`weather1.city` exactly when `weather1.temperature > weather2.temperature`
(strict), otherwise `weather2.city`. -/
def compareEnvelope (w1 w2 : WeatherData) : Envelope :=
  let tempDiff := (w1.temperature - w2.temperature).natAbs
  let warmer := if w1.temperature > w2.temperature then w1.city else w2.city
  { content := [{ type := "text", text := compareText w1 w2 warmer tempDiff }], isError := none }

/-- The body of the `try` block of the weather `CallTool` handler: the API-key
guard first, then the `switch (name)` (JavaScript `switch` compares with
strict string equality, embedded as a chain of equality tests), with the
`default` case throwing `Unknown tool: <name>`. -/
def weatherBody (key : String) (wo : WeatherOracle) (fo : ForecastOracle)
    (name : String) (a : Args) : EffM Envelope :=
  if key = "" then
    effPure apiKeyEnvelope
  else if name = "get_current_weather" then
    effBind (fetchWeather wo key (jsToString (getArg a "city"))) (fun w =>
      effPure { content := [{ type := "text", text := currentWeatherText w }], isError := none })
  else if name = "get_weather_forecast" then
    let days := jsNumOr (getArg a "days") ⟨3, 1⟩
    effBind (fetchForecast fo key (jsToString (getArg a "city")) days) (fun f =>
      effPure { content := [{ type := "text", text := forecastText days f }], isError := none })
  else if name = "compare_weather" then
    effBind (promiseAll2 (fetchWeather wo key (jsToString (getArg a "city1")))
                         (fetchWeather wo key (jsToString (getArg a "city2")))) (fun p =>
      effPure (compareEnvelope p.1 p.2))
  else
    effThrow ("Unknown tool: " ++ name)

/-- The weather `CallTool` request handler.  The `if (!args) throw` guard sits
BEFORE the `try` block in the source, so its throw is not caught by the
`catch` clause: it propagates out of the handler (an `Except.error` final
result, i.e. a protocol-level fault surfaced by the SDK transport).  All
failures inside the `try` body are converted by the `catch` clause into
`mkErrorEnvelope`. -/
def weatherCallToolHandler (key : String) (wo : WeatherOracle) (fo : ForecastOracle)
    (name : String) (args : Option Args) : EffM Envelope :=
  match args with
  | none => effThrow "Arguments are required for this tool"
  | some a => effCatch (weatherBody key wo fo name a) (fun m => effPure (mkErrorEnvelope m))

/-! ## The GitHub diff server (`src/unnamed/part_000`)

`axios.get` throws on a network failure AND on a non-2xx status, so the
oracle maps the request URL directly to either a rejection message or the
parsed response body.  The body field `commits` is `none` when the response
has no `commits` array (reading `.filter` of `undefined` then throws a
`TypeError`, whose Node message the model carries).  The request headers
(`Authorization: Bearer <GITHUB_TOKEN>`, `Accept`) do not influence any
modelled observable and are not represented.  Note that this handler never
inspects the tool name: whatever the requested name, it runs the comparison
logic. -/

/-- One commit of the GitHub compare response, flattened to the fields the
code reads: `c.sha`, `c.commit.message`, `c.commit.author.name`,
`c.html_url`. -/
structure GitCommitRaw where
  sha : String
  message : String
  author : String
  html_url : String
deriving DecidableEq, Repr

/-- The parsed `response.data`: `commits := none` models a body without a
`commits` array. -/
structure GitData where
  commits : Option (List GitCommitRaw)
deriving DecidableEq, Repr

/-- The upstream GitHub compare endpoint as `axios.get` presents it. -/
abbrev GitOracle := String → Except String GitData

/-- One commit of the handler output object. -/
structure GitCommitOut where
  sha : String
  author : String
  message : String
  url : String
deriving DecidableEq, Repr

/-- The object passed to `JSON.stringify` by the handler.  The first three
fields hold the raw argument values (a missing argument is `undefined`, which
`JSON.stringify` omits). -/
structure GitResult where
  repository : JsVal
  fromVersion : JsVal
  toVersion : JsVal
  totalCommits : Nat
  commits : List GitCommitOut
deriving DecidableEq, Repr

/-- One top-level JSON entry for a key holding a JavaScript value:
`JSON.stringify` omits the key when the value is `undefined`. -/
def jsonEntryOfJsVal (k : String) (v : JsVal) : Option String :=
  match v with
  | .undefined => none
  | .str s => some (jsonQuote k ++ ": " ++ jsonQuote s)
  | .num q => some (jsonQuote k ++ ": " ++ jsNumToString q)

/-- One commit object as `JSON.stringify(obj, null, 2)` renders it at nesting
depth two. -/
def renderCommitOut (c : GitCommitOut) : String :=
  "    \x7b\n"
  ++ "      " ++ jsonQuote "sha" ++ ": " ++ jsonQuote c.sha ++ ",\n"
  ++ "      " ++ jsonQuote "author" ++ ": " ++ jsonQuote c.author ++ ",\n"
  ++ "      " ++ jsonQuote "message" ++ ": " ++ jsonQuote c.message ++ ",\n"
  ++ "      " ++ jsonQuote "url" ++ ": " ++ jsonQuote c.url ++ "\n"
  ++ "    \x7d"

/-- The commits array as `JSON.stringify(obj, null, 2)` renders it. -/
def renderCommitList (cs : List GitCommitOut) : String :=
  match cs with
  | [] => "[]"
  | _ => "[\n" ++ joinSep ",\n" (cs.map renderCommitOut) ++ "\n  ]"

/-- `JSON.stringify(result, null, 2)` for the fixed shape of the handler
output. -/
def renderGitResult (r : GitResult) : String :=
  let entries :=
    ([("repository", r.repository), ("fromVersion", r.fromVersion),
      ("toVersion", r.toVersion)].filterMap (fun p => jsonEntryOfJsVal p.1 p.2))
    ++ [jsonQuote "totalCommits" ++ ": " ++ natToString r.totalCommits,
        jsonQuote "commits" ++ ": " ++ renderCommitList r.commits]
  "\x7b\n" ++ joinSep ",\n" (entries.map (fun e => "  " ++ e)) ++ "\n\x7d"

/-- The URL built by the handler. -/
def gitCompareUrl (owner repoName fromS toS : String) : String :=
  "https://api.github.com/repos/" ++ owner ++ "/" ++ repoName ++ "/compare/"
    ++ fromS ++ "..." ++ toS

/-- The body of the `try` block of the GitHub `CallTool` handler.  The
destructured `repo` must be a string for `.split("/")` to work (reading
`.split` of `undefined` throws a `TypeError` with the Node message carried
here; calling it on a number throws `repo.split is not a function`); owner or
repository name missing or empty (JavaScript falsy) throws the
`Invalid repo format` error; then the compare endpoint is called, merge
commits are dropped by the `startsWith("Merge")` filter, and the remaining
commits are mapped (7-character sha, author name, first message line, HTML
URL) into the JSON payload with `totalCommits` counting the FILTERED list. -/
def gitBody (go : GitOracle) (a : Args) : EffM Envelope :=
  match getArg a "repo" with
  | .undefined => effThrow "Cannot read properties of undefined (reading \x27split\x27)"
  | .num _ => effThrow "repo.split is not a function"
  | .str rs =>
    match jsSplit (Char.ofNat 47) rs with
    | owner :: repoName :: _ =>
      if owner = "" || repoName = "" then
        effThrow "Invalid repo format. Use owner/repo"
      else
        effBind
          (effCall go (gitCompareUrl owner repoName (jsToString (getArg a "fromVersion"))
            (jsToString (getArg a "toVersion"))))
          (fun d =>
            match d.commits with
            | none => effThrow "Cannot read properties of undefined (reading \x27filter\x27)"
            | some cs =>
              let commits : List GitCommitOut :=
                (cs.filter (fun c => !(strStartsWith c.message "Merge"))).map
                  (fun c => { sha := strTake c.sha 7, author := c.author,
                              message := (jsSplit (Char.ofNat 10) c.message).headD "",
                              url := c.html_url })
              let payload : GitResult :=
                { repository := JsVal.str rs, fromVersion := getArg a "fromVersion",
                  toVersion := getArg a "toVersion",
                  totalCommits := commits.length, commits := commits }
              effPure { content := [{ type := "text", text := renderGitResult payload }],
                        isError := none })
    | _ => effThrow "Invalid repo format. Use owner/repo"

/-- The GitHub `CallTool` request handler.  As in the weather server, the
`if (!args) throw` guard sits before the `try` block, so that throw escapes
to the transport; everything inside the `try` body is converted by the
`catch` clause into `mkErrorEnvelope`.  The tool name parameter is accepted
but never read, mirroring the source. -/
def gitCallToolHandler (go : GitOracle) (name : String) (args : Option Args) : EffM Envelope :=
  match args with
  | none => effThrow "Arguments are required for this tool"
  | some a => effCatch (gitBody go a) (fun m => effPure (mkErrorEnvelope m))

/-! ## Concrete stub inputs used by witnesses and counterexamples -/

/-- A current-weather endpoint whose every request fails at the network
level. -/
def stubWeatherOracle : WeatherOracle := fun _ => Except.error "network failure"

/-- A forecast endpoint whose every request fails at the network level. -/
def stubForecastOracle : ForecastOracle := fun _ => Except.error "network failure"

/-- A compare endpoint whose every request fails at the network level. -/
def stubGitOracle : GitOracle := fun _ => Except.error "network failure"

/-- Scenario A stub: the compare endpoint returns two commits, exactly one of
which has a message starting with `Merge`. -/
def scenarioCommits : List GitCommitRaw :=
  [{ sha := "1111111aaaa", message := "Merge pull request #1 from x/y",
     author := "Alice", html_url := "https://example.com/c1" },
   { sha := "2222222bbbb", message := "Fix bug\nDetails", author := "Bob",
     html_url := "https://example.com/c2" }]

/-- Scenario A upstream: every request yields the two stub commits. -/
def scenarioGitOracle : GitOracle := fun _ => Except.ok { commits := some scenarioCommits }

/-- Scenario A arguments: `repo = o/r`, `fromVersion = v1`, `toVersion = v2`. -/
def scenarioGitArgs : Args :=
  [("repo", JsVal.str "o/r"), ("fromVersion", JsVal.str "v1"), ("toVersion", JsVal.str "v2")]

/-- Scenario C stub body for city `A`: upstream temperature 10 degrees C. -/
def owmBodyA : OwmBody :=
  { temp := ⟨10, 1⟩, feels_like := ⟨9, 1⟩, humidity := ⟨50, 1⟩, weatherMain := "Clear",
    weatherDescription := "clear sky", windSpeed := ⟨5, 1⟩, name := "A", country := "X" }

/-- Scenario C stub body for city `B`: upstream temperature 15 degrees C. -/
def owmBodyB : OwmBody :=
  { temp := ⟨15, 1⟩, feels_like := ⟨14, 1⟩, humidity := ⟨60, 1⟩, weatherMain := "Clouds",
    weatherDescription := "few clouds", windSpeed := ⟨4, 1⟩, name := "B", country := "Y" }

/-- Scenario C upstream: city `A` at 10 degrees, city `B` at 15 degrees (with
API key `k`); anything else fails. -/
def scenarioWeatherOracle : WeatherOracle := fun url =>
  if url = weatherUrl "k" "A" then
    Except.ok { ok := true, status := 200, statusText := "OK", json := Except.ok owmBodyA }
  else if url = weatherUrl "k" "B" then
    Except.ok { ok := true, status := 200, statusText := "OK", json := Except.ok owmBodyB }
  else Except.error "unexpected url"

/-- The `WeatherData` that `fetchWeather` builds from `owmBodyA`
(wind 5 m/s = 18 km/h). -/
def weatherA : WeatherData :=
  { temperature := 10, feels_like := 9, condition := "Clear", description := "clear sky",
    humidity := ⟨50, 1⟩, wind_speed := 18, city := "A", country := "X" }

/-- The `WeatherData` that `fetchWeather` builds from `owmBodyB`
(wind 4 m/s = 14.4 km/h, rounded to 14). -/
def weatherB : WeatherData :=
  { temperature := 15, feels_like := 14, condition := "Clouds", description := "few clouds",
    humidity := ⟨60, 1⟩, wind_speed := 14, city := "B", country := "Y" }

/-- Equal-temperature stub body for city `A` (12 degrees C). -/
def owmBodyEqA : OwmBody :=
  { temp := ⟨12, 1⟩, feels_like := ⟨11, 1⟩, humidity := ⟨40, 1⟩, weatherMain := "Mist",
    weatherDescription := "mist", windSpeed := ⟨10, 1⟩, name := "A", country := "X" }

/-- Equal-temperature stub body for city `B` (12 degrees C). -/
def owmBodyEqB : OwmBody :=
  { temp := ⟨12, 1⟩, feels_like := ⟨13, 1⟩, humidity := ⟨45, 1⟩, weatherMain := "Haze",
    weatherDescription := "haze", windSpeed := ⟨20, 1⟩, name := "B", country := "Y" }

/-- Equal-temperature upstream: both cities report 12 degrees C. -/
def equalTempOracle : WeatherOracle := fun url =>
  if url = weatherUrl "k" "A" then
    Except.ok { ok := true, status := 200, statusText := "OK", json := Except.ok owmBodyEqA }
  else if url = weatherUrl "k" "B" then
    Except.ok { ok := true, status := 200, statusText := "OK", json := Except.ok owmBodyEqB }
  else Except.error "unexpected url"

/-- The `WeatherData` that `fetchWeather` builds from `owmBodyEqA`. -/
def weatherEqA : WeatherData :=
  { temperature := 12, feels_like := 11, condition := "Mist", description := "mist",
    humidity := ⟨40, 1⟩, wind_speed := 36, city := "A", country := "X" }

/-- The `WeatherData` that `fetchWeather` builds from `owmBodyEqB`. -/
def weatherEqB : WeatherData :=
  { temperature := 12, feels_like := 13, condition := "Haze", description := "haze",
    humidity := ⟨45, 1⟩, wind_speed := 72, city := "B", country := "Y" }

/-! ## Helper lemmas -/

/-- A `try/catch` whose catch clause performs no outbound call leaves the URL
log of the body unchanged. -/
theorem effCatch_snd_of_pure {α : Type} (x : EffM α) (k : String → EffM α)
    (hk : ∀ m, (k m).2 = []) : (effCatch x k).2 = x.2 := by
  rcases x with ⟨r, l⟩
  cases r <;> simp [effCatch, hk]

/-- A sequencing whose continuation performs no outbound call leaves the URL
log of the first step unchanged. -/
theorem effBind_snd_of_pure {α β : Type} (x : EffM α) (k : α → EffM β)
    (hk : ∀ a, (k a).2 = []) : (effBind x k).2 = x.2 := by
  rcases x with ⟨r, l⟩
  cases r <;> simp [effBind, hk]

/-- `fetchWeather` performs exactly one outbound call, to its weather URL,
whatever the oracle answers. -/
theorem fetchWeather_snd (wo : WeatherOracle) (key city : String) :
    (fetchWeather wo key city).2 = [weatherUrl key city] := by
  unfold fetchWeather effBind effCall
  cases h : wo (weatherUrl key city) with
  | error m => simp [h]
  | ok resp =>
    rcases resp with ⟨rok, rstatus, rstatusText, rjson⟩
    cases rok <;> cases rjson <;> simp [h, effThrow, effPure]

/-- Behaviour of the `compare_weather` branch for a non-empty API key: both
weather URLs are requested (in `city1`, `city2` order), a success pairs the
two results positionally into `compareEnvelope`, and a failure of either
fetch makes the whole body fail with that message (converted by the catch
boundary into a single error envelope). -/
theorem weather_compare_path (key : String) (wo : WeatherOracle) (fo : ForecastOracle)
    (a : Args) (hkey : key ≠ "") :
    weatherCallToolHandler key wo fo "compare_weather" (some a) =
      (Except.ok (match (fetchWeather wo key (jsToString (getArg a "city1"))).1,
                        (fetchWeather wo key (jsToString (getArg a "city2"))).1 with
        | Except.ok w1, Except.ok w2 => compareEnvelope w1 w2
        | Except.error m, _ => mkErrorEnvelope m
        | Except.ok _, Except.error m => mkErrorEnvelope m),
       [weatherUrl key (jsToString (getArg a "city1")),
        weatherUrl key (jsToString (getArg a "city2"))]) := by
  have hs1 := fetchWeather_snd wo key (jsToString (getArg a "city1"))
  have hs2 := fetchWeather_snd wo key (jsToString (getArg a "city2"))
  show effCatch (weatherBody key wo fo "compare_weather" a) _ = _
  unfold weatherBody
  rw [if_neg hkey, if_neg (by decide : ¬("compare_weather" = "get_current_weather")),
    if_neg (by decide : ¬("compare_weather" = "get_weather_forecast")), if_pos rfl]
  rcases hf1 : fetchWeather wo key (jsToString (getArg a "city1")) with ⟨r1, l1⟩
  rcases hf2 : fetchWeather wo key (jsToString (getArg a "city2")) with ⟨r2, l2⟩
  rw [hf1] at hs1
  rw [hf2] at hs2
  simp only at hs1 hs2
  subst hs1
  subst hs2
  cases r1 <;> cases r2 <;>
    simp [promiseAll2, effBind, effCatch, effPure]

/-! ## Claim theorems -/

set_option maxRecDepth 40000

/-- C1: in both servers, any failure raised inside the `try` body of the
`CallTool` handler (network failure, non-success HTTP status modelled by the
oracle or the `ok = false` branch, malformed upstream response, any thrown
error) is caught at the dispatcher boundary: given an arguments object, the
handler always returns `Except.ok` (nothing reaches the transport as a
protocol-level fault), and when the body fails with message `m` the returned
envelope is exactly `mkErrorEnvelope m`, i.e. one text block whose payload is
`Error: ` followed by the failure message, with `isError = true`. -/
theorem c1_handler_failure_isolated (key : String) (wo : WeatherOracle) (fo : ForecastOracle)
    (name : String) (a : Args) (go : GitOracle) (gname : String) (ga : Args) :
    weatherCallToolHandler key wo fo name (some a) =
      (Except.ok (match (weatherBody key wo fo name a).1 with
        | Except.error m => mkErrorEnvelope m
        | Except.ok env => env),
       (weatherBody key wo fo name a).2)
    ∧ gitCallToolHandler go gname (some ga) =
      (Except.ok (match (gitBody go ga).1 with
        | Except.error m => mkErrorEnvelope m
        | Except.ok env => env),
       (gitBody go ga).2) := by
  constructor
  · rcases hb : weatherBody key wo fo name a with ⟨r, l⟩
    cases r <;> simp [weatherCallToolHandler, effCatch, effPure, hb]
  · rcases hb : gitBody go ga with ⟨r, l⟩
    cases r <;> simp [gitCallToolHandler, effCatch, effPure, hb]

/-- C2 counterexample: the `if (!args) throw` guard of both handlers sits
BEFORE the `try` block, so a `CallTool` invocation with no arguments object
does not yield an `isError = true` envelope: the handler throws (an
`Except.error` final result, a protocol-level fault surfaced by the
transport), shown here at concrete inputs for both servers. -/
theorem c2_counterexample :
    weatherCallToolHandler "key" stubWeatherOracle stubForecastOracle "get_current_weather" none
        = (Except.error "Arguments are required for this tool", [])
    ∧ gitCallToolHandler stubGitOracle "git_changes_between_versions" none
        = (Except.error "Arguments are required for this tool", []) := ⟨rfl, rfl⟩

/-- C2 as amended: for every tool name in either server, a `CallTool`
invocation whose arguments object is entirely absent makes the handler throw
`Arguments are required for this tool` before any handler logic runs and
before any outbound call; the throw happens outside the catch boundary, so it
is propagated to the transport layer as a protocol-level fault rather than
being converted into an `isError` envelope. -/
theorem c2_amended_missing_args_throw (key : String) (wo : WeatherOracle) (fo : ForecastOracle)
    (name : String) (go : GitOracle) (gname : String) :
    weatherCallToolHandler key wo fo name none
        = (Except.error "Arguments are required for this tool", [])
    ∧ gitCallToolHandler go gname none
        = (Except.error "Arguments are required for this tool", []) := ⟨rfl, rfl⟩

/-- C3 counterexample: with an API key configured, calling
`get_current_weather` with an arguments object that omits the required `city`
field does NOT yield a missing-field error without an outbound call: an
outbound HTTP call IS attempted, with the literal string `undefined` as the
city (the request URL below carries `q=undefined`), and the resulting
envelope merely reports the upstream failure. -/
theorem c3_counterexample :
    weatherCallToolHandler "key" stubWeatherOracle stubForecastOracle "get_current_weather"
        (some [])
      = (Except.ok (mkErrorEnvelope "network failure"),
         ["https://api.openweathermap.org/data/2.5/weather?q=undefined&appid=key&units=metric"])
      := by decide

/-- C3 as amended: neither server validates required fields.  With an API key
configured, `get_current_weather` with `city` absent issues its single
outbound call with the coerced city `undefined`; the GitHub handler with
`repo` absent throws a `TypeError` while reading `.split`, caught as a
generic error envelope that does not name the missing field and makes no
outbound call; and with a well-formed `repo` but `fromVersion` absent the
outbound compare call IS attempted, with `undefined` interpolated into the
URL. -/
theorem c3_amended_no_required_field_validation
    (key : String) (wo : WeatherOracle) (fo : ForecastOracle) (a : Args)
    (go : GitOracle) (ga : Args) (go2 : GitOracle) (gb : Args)
    (hkey : key ≠ "")
    (hcity : getArg a "city" = JsVal.undefined)
    (hrepo : getArg ga "repo" = JsVal.undefined)
    (hrepo2 : getArg gb "repo" = JsVal.str "o/r")
    (hfrom : getArg gb "fromVersion" = JsVal.undefined) :
    (weatherCallToolHandler key wo fo "get_current_weather" (some a)).2
        = [weatherUrl key "undefined"]
    ∧ gitCallToolHandler go "git_changes_between_versions" (some ga)
        = (Except.ok
            (mkErrorEnvelope "Cannot read properties of undefined (reading \x27split\x27)"), [])
    ∧ (gitCallToolHandler go2 "git_changes_between_versions" (some gb)).2
        = [gitCompareUrl "o" "r" "undefined" (jsToString (getArg gb "toVersion"))] := by
  refine ⟨?_, ?_, ?_⟩
  · show (effCatch (weatherBody key wo fo "get_current_weather" a) _).2 = _
    rw [effCatch_snd_of_pure _ _ (fun _ => rfl)]
    unfold weatherBody
    rw [if_neg hkey, if_pos rfl]
    rw [effBind_snd_of_pure _ _ (fun _ => rfl)]
    rw [hcity, fetchWeather_snd]
    rfl
  · show effCatch (gitBody go ga) _ = _
    unfold gitBody
    rw [hrepo]
    simp [effCatch, effThrow, effPure]
  · show (effCatch (gitBody go2 gb) _).2 = _
    rw [effCatch_snd_of_pure _ _ (fun _ => rfl)]
    unfold gitBody
    have hsplit : jsSplit (Char.ofNat 47) "o/r" = ["o", "r"] := by decide
    simp only [hrepo2, hfrom, hsplit]
    rw [if_neg (by decide : ¬(("o" = "" || "r" = "") = true))]
    rw [effBind_snd_of_pure _ _ (fun d => by cases d.commits <;> rfl)]
    rfl

/-- C3 witness: the amended statement instantiated at concrete inputs (empty
arguments for the missing `city` and missing `repo` cases; a two-field
arguments object for the missing `fromVersion` case). -/
theorem c3_amended_witness :
    (weatherCallToolHandler "key" stubWeatherOracle stubForecastOracle "get_current_weather"
        (some [])).2 = [weatherUrl "key" "undefined"]
    ∧ gitCallToolHandler stubGitOracle "git_changes_between_versions" (some [])
        = (Except.ok
            (mkErrorEnvelope "Cannot read properties of undefined (reading \x27split\x27)"), [])
    ∧ (gitCallToolHandler scenarioGitOracle "git_changes_between_versions"
        (some [("repo", JsVal.str "o/r"), ("toVersion", JsVal.str "v2")])).2
        = [gitCompareUrl "o" "r" "undefined" "v2"] := by
  have h := c3_amended_no_required_field_validation "key" stubWeatherOracle stubForecastOracle []
    stubGitOracle [] scenarioGitOracle [("repo", JsVal.str "o/r"), ("toVersion", JsVal.str "v2")]
    (by decide) (by decide) (by decide) (by decide) (by decide)
  exact ⟨h.1, h.2.1, h.2.2⟩

/-- C4 counterexample: with an empty API key, a `CallTool` invocation of an
uncataloged tool name (here `bogus_tool`) with an arguments object present
does NOT return the `Unknown tool` error envelope: the API-key guard answers
first with the informational envelope, whose `isError` is absent. -/
theorem c4_counterexample :
    weatherCallToolHandler "" stubWeatherOracle stubForecastOracle "bogus_tool" (some [])
        = (Except.ok apiKeyEnvelope, [])
    ∧ apiKeyEnvelope ≠ mkErrorEnvelope "Unknown tool: bogus_tool" := by
  exact ⟨rfl, by decide⟩

/-- C4 as amended: provided the API key is non-empty, every tool name outside
the catalog of the weather server yields, for any arguments object, the
envelope `Error: Unknown tool: <name>` with `isError = true`, with no handler
invoked and no outbound HTTP call attempted (empty URL log). -/
theorem c4_amended_unknown_tool (key name : String) (wo : WeatherOracle) (fo : ForecastOracle)
    (a : Args) (hkey : key ≠ "") (h1 : name ≠ "get_current_weather")
    (h2 : name ≠ "get_weather_forecast") (h3 : name ≠ "compare_weather") :
    weatherCallToolHandler key wo fo name (some a)
      = (Except.ok (mkErrorEnvelope ("Unknown tool: " ++ name)), []) := by
  show effCatch (weatherBody key wo fo name a) _ = _
  unfold weatherBody
  rw [if_neg hkey, if_neg h1, if_neg h2, if_neg h3]
  rfl

/-- C4 witness: the amended statement at the concrete uncataloged name
`bogus_tool` with API key `k`. -/
theorem c4_amended_witness :
    weatherCallToolHandler "k" stubWeatherOracle stubForecastOracle "bogus_tool" (some [])
      = (Except.ok (mkErrorEnvelope ("Unknown tool: " ++ "bogus_tool")), []) :=
  c4_amended_unknown_tool "k" "bogus_tool" stubWeatherOracle stubForecastOracle []
    (by decide) (by decide) (by decide) (by decide)

/-- C5 (scenario A): calling `git_changes_between_versions` with
`repo = o/r`, `fromVersion = v1`, `toVersion = v2` against a stub upstream
returning two commits of which exactly one starts with `Merge` produces a
success envelope whose JSON text lists exactly the one non-merge commit
(7-character sha, author, first message line, HTML URL) and reports
`totalCommits = 1`. -/
theorem c5_merge_commits_filtered :
    gitCallToolHandler scenarioGitOracle "git_changes_between_versions" (some scenarioGitArgs)
      = (Except.ok
          { content :=
              [{ type := "text",
                 text := renderGitResult
                   { repository := JsVal.str "o/r",
                     fromVersion := JsVal.str "v1",
                     toVersion := JsVal.str "v2",
                     totalCommits := 1,
                     commits :=
                       [{ sha := "2222222", author := "Bob", message := "Fix bug",
                          url := "https://example.com/c2" }] } }],
            isError := none },
         [gitCompareUrl "o" "r" "v1" "v2"]) := by decide

/-- C6 (scenario C): `compare_weather` on cities `A` and `B` whose stub
upstream temperatures are 10 and 15 degrees C produces a success envelope
whose text is the comparison template with `B` named as the warmer city and a
temperature difference of 5 (the absolute difference of the two rounded
temperatures), with the two fetches issued for `city1` then `city2`. -/
theorem c6_compare_weather_scenario :
    weatherCallToolHandler "k" scenarioWeatherOracle stubForecastOracle "compare_weather"
        (some [("city1", JsVal.str "A"), ("city2", JsVal.str "B")])
      = (Except.ok
          { content := [{ type := "text", text := compareText weatherA weatherB "B" 5 }],
            isError := none },
         [weatherUrl "k" "A", weatherUrl "k" "B"]) := by decide

/-- C7 (scenario B): with `OPENWEATHER_API_KEY` unset or empty (both read as
the empty string through `process.env... || ""`), `get_current_weather`
returns the informational envelope instructing the caller to obtain an API
key, with its `isError` property absent (not `true`), and the URL log is
empty: no outbound HTTP call is attempted. -/
theorem c7_missing_api_key_informational (wo : WeatherOracle) (fo : ForecastOracle) (a : Args) :
    weatherCallToolHandler "" wo fo "get_current_weather" (some a)
        = (Except.ok apiKeyEnvelope, [])
    ∧ apiKeyEnvelope.isError = none := ⟨rfl, rfl⟩

/-- C8: for `compare_weather` with a configured API key, the two weather
fetches are issued jointly through `Promise.all` (modelled by `promiseAll2`:
both URLs always appear in the log, in `city1`, `city2` argument order, even
when a fetch fails), the two results are matched back positionally - the
success envelope is `compareEnvelope w1 w2` with the data of `city1` reported
first - and a failure of either fetch fails the whole invocation into a
single error envelope carrying that failure message: neither side is
silently dropped. -/
theorem c8_compare_concurrent_join (key : String) (wo : WeatherOracle) (fo : ForecastOracle)
    (a : Args) (hkey : key ≠ "") :
    weatherCallToolHandler key wo fo "compare_weather" (some a) =
      (Except.ok (match (fetchWeather wo key (jsToString (getArg a "city1"))).1,
                        (fetchWeather wo key (jsToString (getArg a "city2"))).1 with
        | Except.ok w1, Except.ok w2 => compareEnvelope w1 w2
        | Except.error m, _ => mkErrorEnvelope m
        | Except.ok _, Except.error m => mkErrorEnvelope m),
       [weatherUrl key (jsToString (getArg a "city1")),
        weatherUrl key (jsToString (getArg a "city2"))]) :=
  weather_compare_path key wo fo a hkey

/-- C8 witness: the statement instantiated at scenario C inputs; both URLs
are logged and the success envelope pairs the city data in argument order. -/
theorem c8_witness :
    weatherCallToolHandler "k" scenarioWeatherOracle stubForecastOracle "compare_weather"
        (some [("city1", JsVal.str "A"), ("city2", JsVal.str "B")])
      = (Except.ok (compareEnvelope weatherA weatherB),
         [weatherUrl "k" "A", weatherUrl "k" "B"]) := by
  have h := c8_compare_concurrent_join "k" scenarioWeatherOracle stubForecastOracle
    [("city1", JsVal.str "A"), ("city2", JsVal.str "B")] (by decide)
  rw [h]
  decide

/-- C9: when the two rounded temperatures are exactly equal, the `warmer`
selection (`weather1.temperature > weather2.temperature ? city1 : city2`,
strict greater-than) falls to `city2`, so the output names the second city as
the warmer one with a difference of 0 degrees C. -/
theorem c9_equal_temps_city2 (key : String) (wo : WeatherOracle) (fo : ForecastOracle)
    (a : Args) (w1 w2 : WeatherData) (hkey : key ≠ "")
    (h1 : (fetchWeather wo key (jsToString (getArg a "city1"))).1 = Except.ok w1)
    (h2 : (fetchWeather wo key (jsToString (getArg a "city2"))).1 = Except.ok w2)
    (heq : w1.temperature = w2.temperature) :
    weatherCallToolHandler key wo fo "compare_weather" (some a)
      = (Except.ok
          { content := [{ type := "text", text := compareText w1 w2 w2.city 0 }],
            isError := none },
         [weatherUrl key (jsToString (getArg a "city1")),
          weatherUrl key (jsToString (getArg a "city2"))]) := by
  rw [weather_compare_path key wo fo a hkey, h1, h2]
  simp [compareEnvelope, heq]

/-- C9 witness: a stub upstream reporting 12 degrees C for both cities; the
output names city `B` with a difference of 0. -/
theorem c9_witness :
    weatherCallToolHandler "k" equalTempOracle stubForecastOracle "compare_weather"
        (some [("city1", JsVal.str "A"), ("city2", JsVal.str "B")])
      = (Except.ok
          { content := [{ type := "text", text := compareText weatherEqA weatherEqB "B" 0 }],
            isError := none },
         [weatherUrl "k" "A", weatherUrl "k" "B"]) := by
  have h := c9_equal_temps_city2 "k" equalTempOracle stubForecastOracle
    [("city1", JsVal.str "A"), ("city2", JsVal.str "B")] weatherEqA weatherEqB
    (by decide) (by decide) (by decide) (by decide)
  exact h

/-- C10: the API-key guard of the weather server sits inside the `try` block
but BEFORE the `switch` on the tool name, so with an empty key every
`CallTool` request carrying an arguments object - any tool name whatsoever,
including names outside the catalog - returns the informational API-key
envelope (with `isError` absent) and performs no outbound call; the
`Unknown tool` branch is never reached. -/
theorem c10_api_key_guard_precedes_dispatch (wo : WeatherOracle) (fo : ForecastOracle)
    (name : String) (a : Args) :
    weatherCallToolHandler "" wo fo name (some a) = (Except.ok apiKeyEnvelope, [])
    ∧ apiKeyEnvelope.isError = none := ⟨rfl, rfl⟩
